import Mathlib

/-!
Shallow embedding of `RAGFIN1_DEPLOY/main.py`, a FastAPI service with seven
endpoints.  Numbers are modelled as rationals (the repository only uses exact
decimal constants and single multiplications, where IEEE doubles and rationals
agree on every value the claims mention).  The wall-clock `timestamp` field is
omitted from the response models: it is the only nondeterministic field and no
claim mentions it.  The external Groq chat-completion call is modelled by an
explicit `Except String String` argument (error message, or answer content),
and the presence of the `GROQ_API_KEY` credential by a `Bool`.
-/

namespace Ragfin1

/-- ASCII lowercasing of one character, modelling Python `str.lower` on the
ASCII range (the only keyword tested, "compare", is ASCII). -/
def pyLowerChar (c : Char) : Char :=
  if 65 ≤ c.toNat ∧ c.toNat ≤ 90 then Char.ofNat (c.toNat + 32) else c

/-- ASCII lowercasing of a string, modelling Python `str.lower`. -/
def pyLower (s : String) : String :=
  String.mk (s.data.map pyLowerChar)

/-- Whether `pat` is a prefix of `s`, on character lists. -/
def isPrefixOfList : List Char → List Char → Bool
  | [], _ => true
  | _ :: _, [] => false
  | p :: ps, c :: cs => p == c && isPrefixOfList ps cs

/-- Whether `pat` occurs as a contiguous sublist of `s`. -/
def hasSubList (pat : List Char) : List Char → Bool
  | [] => isPrefixOfList pat []
  | c :: cs => isPrefixOfList pat (c :: cs) || hasSubList pat cs

/-- Substring containment, modelling the Python expression `pat in s`. -/
def strContains (s pat : String) : Bool :=
  hasSubList pat.data s.data

/-- Request body of `POST /api/v1/query` (`QueryRequest`, main.py lines 30-32).
The opaque `Dict[str, Any]` context is modelled as an association list; for the
code only its presence and (non-)emptiness matter. -/
structure QueryRequest where
  question : String
  context : Option (List (String × String))
deriving Repr, DecidableEq

/-- Response body of `POST /api/v1/query` (`QueryResponse`, main.py lines
34-40), without the nondeterministic `timestamp`. -/
structure QueryResponse where
  answer : String
  intent : String
  sources : List String
  context_used : Bool
  confidence : Rat
deriving Repr, DecidableEq

/-- Result of a handler: a successful body, or an `HTTPException` with status
code and detail string. -/
inductive HandlerResult where
  | ok : QueryResponse → HandlerResult
  | httpError : Nat → String → HandlerResult
deriving Repr, DecidableEq

/-- Python truthiness of the optional context dict: `bool(None) = False`,
`bool({}) = False`, `bool(nonempty dict) = True` (main.py line 108). -/
def pyTruthy : Option (List (String × String)) → Bool
  | none => false
  | some m => !m.isEmpty

/-- Fallback response when no `GROQ_API_KEY` is configured
(main.py lines 76-83). -/
def fallbackResponse (req : QueryRequest) : QueryResponse :=
  { answer := "I received your question: \x27" ++ req.question ++
      "\x27. To provide AI-powered answers, please configure GROQ_API_KEY.",
    intent := "informational",
    sources := ["system"],
    context_used := false,
    confidence := 1/2 }

/-- Success response built from the Groq answer (main.py lines 104-111). -/
def successResponse (req : QueryRequest) (ans : String) : QueryResponse :=
  { answer := ans,
    intent := if strContains (pyLower req.question) "compare" = true
        then "comparison" else "informational",
    sources := ["groq_ai", "general_knowledge"],
    context_used := pyTruthy req.context,
    confidence := 85/100 }

/-- Handler of `POST /api/v1/query` (main.py lines 70-114).  `configured` is
whether `groq_client` was initialized at process start; `ext` is the outcome
of the single external chat-completion call (only consulted when configured):
`Except.error e` models any raised exception with message `e`, caught at line
113 and re-raised as `HTTPException(500, str(e))`. -/
def query (configured : Bool) (ext : Except String String)
    (req : QueryRequest) : HandlerResult :=
  if configured = false then
    HandlerResult.ok (fallbackResponse req)
  else
    match ext with
    | Except.error e => HandlerResult.httpError 500 e
    | Except.ok ans => HandlerResult.ok (successResponse req ans)

/-- One entry of the hardcoded provider list (main.py lines 119-125). -/
structure Provider where
  id : String
  name : String
  countries : List String
deriving Repr, DecidableEq

/-- Response of `GET /api/v1/providers` (main.py lines 116-126). -/
structure ProvidersResponse where
  providers : List Provider
  total : Nat
deriving Repr, DecidableEq

/-- Handler of `GET /api/v1/providers`: a constant (the list is rebuilt
identically on every call and never mutated). -/
def get_providers : ProvidersResponse :=
  let providers : List Provider :=
    [ { id := "wise", name := "Wise", countries := ["USA", "UK", "EU", "MEX", "COL"] },
      { id := "remitly", name := "Remitly", countries := ["USA", "MEX", "PHL", "IND"] },
      { id := "western_union", name := "Western Union", countries := ["Worldwide"] },
      { id := "moneygram", name := "MoneyGram", countries := ["Worldwide"] },
      { id := "xoom", name := "Xoom", countries := ["USA", "MEX", "PHL", "IND"] } ]
  { providers := providers, total := providers.length }

/-- One entry of the hardcoded country list (main.py lines 131-137). -/
structure Country where
  code : String
  name : String
deriving Repr, DecidableEq

/-- Response of `GET /api/v1/countries` (main.py lines 128-138). -/
structure CountriesResponse where
  countries : List Country
  total : Nat
deriving Repr, DecidableEq

/-- Handler of `GET /api/v1/countries`: a constant. -/
def get_countries : CountriesResponse :=
  let countries : List Country :=
    [ { code := "USA", name := "United States" },
      { code := "MEX", name := "Mexico" },
      { code := "COL", name := "Colombia" },
      { code := "BRA", name := "Brazil" },
      { code := "ARG", name := "Argentina" } ]
  { countries := countries, total := countries.length }

/-- One provider quote in the `/api/v1/compare` response (main.py
lines 149-162). -/
structure ProviderQuote where
  provider : String
  fee : Rat
  exchange_rate : Rat
  total_received : Rat
  delivery_time : String
deriving Repr, DecidableEq

/-- Response of `POST /api/v1/compare` (main.py lines 147-166). -/
structure CompareResponse where
  comparison : List ProviderQuote
  best_rate : String
  fastest : String
deriving Repr, DecidableEq

/-- Handler of `POST /api/v1/compare` (main.py lines 140-166).  The float
constants 0.01, 17.5, 3.99 and 17.3 become the exact rationals 1/100, 35/2,
399/100 and 173/10.  Note the body never reads `from_country` or
`to_country`. -/
def compare_providers (amount : Rat) (from_country to_country : String) :
    CompareResponse :=
  { comparison :=
      [ { provider := "Wise",
          fee := amount * (1/100),
          exchange_rate := 35/2,
          total_received := amount * (35/2) - amount * (1/100),
          delivery_time := "1-2 days" },
        { provider := "Remitly",
          fee := 399/100,
          exchange_rate := 173/10,
          total_received := amount * (173/10) - 399/100,
          delivery_time := "minutes" } ],
    best_rate := "Wise",
    fastest := "Remitly" }

/-- The nested recommendation object of `POST /api/v1/recommend`
(main.py lines 177-181). -/
structure Recommendation where
  provider : String
  reason : String
  estimated_cost : Rat
deriving Repr, DecidableEq

/-- Response of `POST /api/v1/recommend` (main.py lines 176-182). -/
structure RecommendResponse where
  recommendation : Recommendation
deriving Repr, DecidableEq

/-- Handler of `POST /api/v1/recommend` (main.py lines 168-182).  `priority`
defaults to "cost" in the route signature; the comparison `priority == "cost"`
is exact and case-sensitive.  The body never reads `from_country` or
`to_country`. -/
def get_recommendation (amount : Rat) (from_country to_country : String)
    (priority : String) : RecommendResponse :=
  { recommendation :=
      { provider := if priority = "cost" then "Wise" else "Remitly",
        reason := "Best option for " ++ priority,
        estimated_cost := if priority = "cost" then amount * (1/100)
          else 399/100 } }

/-- Python `dict.get(key, dflt)` on a string-keyed rate table, by first
matching key. -/
def dictGetRat : List (String × Rat) → String → Rat → Rat
  | [], _, dflt => dflt
  | (k, v) :: rest, key, dflt =>
      if key = k then v else dictGetRat rest key dflt

/-- The hardcoded rate table of `GET /api/v1/rates` (main.py lines 187-191):
17.5, 4200 and 5.2 as exact rationals. -/
def ratesTable : List (String × Rat) :=
  [("USD-MXN", 35/2), ("USD-COL", 4200), ("USD-BRL", 26/5)]

/-- Response of `GET /api/v1/rates` (main.py lines 193-198), without the
nondeterministic `timestamp`; `from` and `to` are rendered as `from_cur` and
`to_cur` (`from` is a reserved word in Lean). -/
structure RatesResponse where
  from_cur : String
  to_cur : String
  rate : Rat
deriving Repr, DecidableEq

/-- Handler of `GET /api/v1/rates` (main.py lines 184-198): the lookup key is
the exact concatenation of the two query parameters with a hyphen, with
default rate 1.0. -/
def get_exchange_rates (from_currency to_currency : String) : RatesResponse :=
  { from_cur := from_currency,
    to_cur := to_currency,
    rate := dictGetRat ratesTable (from_currency ++ "-" ++ to_currency) 1 }

/-! Theorems settling the claims. -/

/-- C1 counterexample: the keyword rule does NOT hold in the no-credential
mode.  The handled question "compare fees" contains "compare" (lowercased),
yet the fallback branch returns intent "informational", not "comparison". -/
theorem C1_counterexample :
    ∃ r : QueryResponse,
      query false (Except.ok "") { question := "compare fees", context := none } =
        HandlerResult.ok r ∧
      strContains (pyLower "compare fees") "compare" = true ∧
      r.intent ≠ "comparison" :=
  ⟨fallbackResponse { question := "compare fees", context := none },
    rfl, by decide, by decide⟩

/-- C1 amended: intent follows the "compare"-keyword rule only on the success
path of the credential-configured mode; in no-credential mode intent is always
"informational", regardless of the question. -/
theorem C1_intent (configured : Bool) (ext : Except String String)
    (req : QueryRequest) (r : QueryResponse)
    (h : query configured ext req = HandlerResult.ok r) :
    r.intent = if configured = true then
        (if strContains (pyLower req.question) "compare" = true
          then "comparison" else "informational")
      else "informational" := by
  cases configured with
  | false =>
    have h2 : HandlerResult.ok (fallbackResponse req) = HandlerResult.ok r := h
    injection h2 with h3
    subst h3
    rfl
  | true =>
    cases ext with
    | error e =>
      have h2 : HandlerResult.httpError 500 e = HandlerResult.ok r := h
      injection h2
    | ok ans =>
      have h2 : HandlerResult.ok (successResponse req ans) = HandlerResult.ok r := h
      injection h2 with h3
      subst h3
      rfl

/-- C1 witness: the amended intent rule at a concrete configured request whose
question contains "Compare". -/
theorem C1_intent_witness :
    (successResponse { question := "Compare fees abroad", context := none }
        "some answer").intent =
      if (true : Bool) = true then
        (if strContains (pyLower "Compare fees abroad") "compare" = true
          then "comparison" else "informational")
      else "informational" :=
  C1_intent true (Except.ok "some answer")
    { question := "Compare fees abroad", context := none }
    (successResponse { question := "Compare fees abroad", context := none }
      "some answer") rfl

/-- C2 counterexample: a supplied non-null but EMPTY context mapping yields
`context_used = false`, because Python `bool({})` is falsy (main.py line 108),
contradicting the claim that any supplied non-null context gives true. -/
theorem C2_counterexample :
    ∃ r : QueryResponse,
      query true (Except.ok "ans") { question := "q", context := some [] } =
        HandlerResult.ok r ∧
      ({ question := "q", context := some [] } : QueryRequest).context ≠ none ∧
      r.context_used = false :=
  ⟨successResponse { question := "q", context := some [] } "ans",
    rfl, by decide, by decide⟩

/-- C2 amended: on the configured success path, `context_used` equals the
Python truthiness of the optional context: true exactly when a non-empty
mapping was supplied; omitted, null, or empty-mapping context gives false. -/
theorem C2_context_used (ans : String) (req : QueryRequest) (r : QueryResponse)
    (h : query true (Except.ok ans) req = HandlerResult.ok r) :
    r.context_used = pyTruthy req.context := by
  have h2 : HandlerResult.ok (successResponse req ans) = HandlerResult.ok r := h
  injection h2 with h3
  subst h3
  rfl

/-- C2 witness: the amended context rule at a concrete request carrying a
non-empty context mapping. -/
theorem C2_context_used_witness :
    (successResponse { question := "q", context := some [("k", "v")] }
        "ans").context_used =
      pyTruthy (some [("k", "v")]) :=
  C2_context_used "ans" { question := "q", context := some [("k", "v")] }
    (successResponse { question := "q", context := some [("k", "v")] } "ans") rfl

/-- C3: with no credential configured, every question yields a deterministic
success response (independent of the external-call outcome and the context)
whose answer contains the question verbatim as a substring, with intent
"informational", sources exactly ["system"], confidence exactly 0.5, and
`context_used = false`. -/
theorem C3_fallback (q : String) (ctx : Option (List (String × String)))
    (ext : Except String String) :
    query false ext { question := q, context := ctx } =
      HandlerResult.ok (fallbackResponse { question := q, context := ctx }) ∧
    (∃ pre suf, (fallbackResponse { question := q, context := ctx }).answer =
      pre ++ q ++ suf) ∧
    (fallbackResponse { question := q, context := ctx }).intent =
      "informational" ∧
    (fallbackResponse { question := q, context := ctx }).sources = ["system"] ∧
    (fallbackResponse { question := q, context := ctx }).confidence = 1/2 ∧
    (fallbackResponse { question := q, context := ctx }).context_used = false :=
  ⟨rfl,
    ⟨"I received your question: \x27",
      "\x27. To provide AI-powered answers, please configure GROQ_API_KEY.",
      rfl⟩,
    rfl, rfl, rfl, rfl⟩

/-- C4: in configured mode, any exception from the external call (message `e`)
makes the handler answer HTTP 500 with detail exactly `e`; the single-shot
`query` function consumes exactly one external outcome, so there is no retry
and no partial result. -/
theorem C4_exception (e : String) (req : QueryRequest) :
    query true (Except.error e) req = HandlerResult.httpError 500 e :=
  rfl

/-- C5: USD to MXN returns rate 17.5, and any pair whose key misses all three
table keys returns the default rate 1.0. -/
theorem C5_rates :
    (get_exchange_rates "USD" "MXN").rate = 35/2 ∧
    ∀ fc tc : String,
      fc ++ "-" ++ tc ≠ "USD-MXN" →
      fc ++ "-" ++ tc ≠ "USD-COL" →
      fc ++ "-" ++ tc ≠ "USD-BRL" →
      (get_exchange_rates fc tc).rate = 1 := by
  constructor
  · show dictGetRat ratesTable ("USD" ++ "-" ++ "MXN") 1 = 35/2
    simp only [ratesTable, dictGetRat]
    rw [if_pos (by decide)]
  refine fun fc tc h1 h2 h3 => ?_
  show dictGetRat ratesTable (fc ++ "-" ++ tc) 1 = 1
  simp only [ratesTable, dictGetRat, if_neg h1, if_neg h2, if_neg h3]

/-- C5 witness: an unknown pair falls through to rate 1.0. -/
theorem C5_rates_witness : (get_exchange_rates "EUR" "JPY").rate = 1 :=
  C5_rates.2 "EUR" "JPY" (by decide) (by decide) (by decide)

/-- C6: comparing with amount 100 yields a Wise entry with fee 1.00 and a
Remitly entry with fee 3.99, best_rate "Wise" and fastest "Remitly". -/
theorem C6_compare :
    (compare_providers 100 "USA" "MEX").comparison.map ProviderQuote.provider =
      ["Wise", "Remitly"] ∧
    (compare_providers 100 "USA" "MEX").comparison.map ProviderQuote.fee =
      [1, 399/100] ∧
    (compare_providers 100 "USA" "MEX").best_rate = "Wise" ∧
    (compare_providers 100 "USA" "MEX").fastest = "Remitly" := by
  refine ⟨rfl, ?_, rfl, rfl⟩
  show [(100 : Rat) * (1/100), 399/100] = [1, 399/100]
  norm_num

/-- C7: both static list endpoints return exactly 5 entries with total 5; the
handlers take no input at all, so the lists are constant across calls. -/
theorem C7_static_lists :
    get_providers.providers.length = 5 ∧ get_providers.total = 5 ∧
    get_countries.countries.length = 5 ∧ get_countries.total = 5 :=
  ⟨rfl, rfl, rfl, rfl⟩

/-- C8: noninterference of the country parameters in `/api/v1/compare`: for a
fixed amount, any two pairs of country arguments produce identical
responses. -/
theorem C8_country_noninterference (amount : Rat) (f1 t1 f2 t2 : String) :
    compare_providers amount f1 t1 = compare_providers amount f2 t2 :=
  rfl

/-- C9: every priority other than the exact string "cost" (not only "speed")
recommends Remitly at estimated cost 3.99; priority "cost" recommends Wise at
amount * 0.01. -/
theorem C9_recommend (amount : Rat) (fc tc p : String) :
    (p ≠ "cost" →
      (get_recommendation amount fc tc p).recommendation.provider = "Remitly" ∧
      (get_recommendation amount fc tc p).recommendation.estimated_cost =
        399/100) ∧
    (p = "cost" →
      (get_recommendation amount fc tc p).recommendation.provider = "Wise" ∧
      (get_recommendation amount fc tc p).recommendation.estimated_cost =
        amount * (1/100)) := by
  refine ⟨fun h => ⟨?_, ?_⟩, fun h => ⟨?_, ?_⟩⟩ <;>
    simp [get_recommendation, h]

/-- C9 witness: an arbitrary unrecognized priority string recommends
Remitly at 3.99. -/
theorem C9_recommend_witness :
    (get_recommendation 50 "USA" "MEX" "whatever").recommendation.provider =
      "Remitly" ∧
    (get_recommendation 50 "USA" "MEX" "whatever").recommendation.estimated_cost
      = 399/100 :=
  (C9_recommend 50 "USA" "MEX" "whatever").1 (by decide)

/-- C10: the rate lookup key is the exact concatenation
`from_currency ++ "-" ++ to_currency`, so lookup is direction-sensitive and
case-sensitive: USD to MXN gives 17.5, while the reversed pair MXN to USD and
the lowercased pair usd to mxn both fall through to the default 1.0. -/
theorem C10_rate_key :
    (∀ fc tc : String, get_exchange_rates fc tc =
      { from_cur := fc, to_cur := tc,
        rate := dictGetRat ratesTable (fc ++ "-" ++ tc) 1 }) ∧
    (get_exchange_rates "USD" "MXN").rate = 35/2 ∧
    (get_exchange_rates "MXN" "USD").rate = 1 ∧
    (get_exchange_rates "usd" "mxn").rate = 1 :=
  ⟨fun _ _ => rfl,
    by
      show dictGetRat ratesTable ("USD" ++ "-" ++ "MXN") 1 = 35/2
      simp only [ratesTable, dictGetRat]
      rw [if_pos (by decide)],
    by
      show dictGetRat ratesTable ("MXN" ++ "-" ++ "USD") 1 = 1
      simp only [ratesTable, dictGetRat]
      rw [if_neg (by decide), if_neg (by decide), if_neg (by decide)],
    by
      show dictGetRat ratesTable ("usd" ++ "-" ++ "mxn") 1 = 1
      simp only [ratesTable, dictGetRat]
      rw [if_neg (by decide), if_neg (by decide), if_neg (by decide)]⟩

end Ragfin1
